import Mathlib

/-!
Shallow embedding of the `makora_privacy` Solana/Anchor program
(`programs/makora_privacy/src`): the shielded pool (init_pool, shield,
unshield), the nullifier registry, and the stealth-payment registry
(send_stealth, claim_stealth).

Modelling conventions:
* `u64` values are `Nat` with explicit checked arithmetic mod `2^64`
  mirroring Rust's `checked_add` / `checked_sub`.
* `Pubkey` is an opaque `Nat`; `[u8; 32]` values and account data buffers
  are `List Nat` of bytes.
* Each instruction is embedded twice: a `...Raw` function that applies the
  account-constraint checks and handler statements in source order and
  stops at the first failing `require!` / failing checked op, returning
  the state as mutated so far together with the error; and the exposed
  instruction, which wraps the raw run in the host ledger's transaction
  semantics (on error every mutation is rolled back).  Anchor account
  constraints run in field-declaration order before the handler body.
* Rent lamports on freshly created accounts are ignored; PDA addresses
  are modelled by the seed data that derives them (the pool's address is
  carried explicitly in the chain state).
-/

set_option maxRecDepth 100000
set_option linter.unusedVariables false

namespace Makora

/-- Byte strings: `[u8; 32]` values and raw account data. -/
abbrev Bytes := List Nat

/-- Opaque model of `anchor_lang::prelude::Pubkey`. -/
abbrev Pubkey := Nat

/-- `2^64`, the modulus of the `u64` type backing balances and counters. -/
def U64_MOD : Nat := 2 ^ 64

/-- Rust `u64::checked_add`: `none` exactly when the sum leaves `u64`. -/
def checkedAdd64 (a b : Nat) : Option Nat :=
  if a + b < U64_MOD then some (a + b) else none

/-- Rust `u64::checked_sub`: `none` exactly when the result would underflow. -/
def checkedSub64 (a b : Nat) : Option Nat :=
  if b ≤ a then some (a - b) else none

/-- `PrivacyError` from `errors.rs` (all ten variants, in source order;
`UnauthorizedClaim` and `NullifierAlreadyUsed` are declared there but
raised by no instruction). -/
inductive PrivacyError where
  | PoolNotActive
  | AlreadyClaimed
  | InsufficientPoolBalance
  | InvalidAmount
  | UnauthorizedClaim
  | NullifierAlreadyUsed
  | InvalidProofBuffer
  | ProofNotVerified
  | ProofNullifierMismatch
  | ProofMerkleRootMismatch
  deriving DecidableEq, Repr

/-- Errors a transaction can fail with: the program's own `PrivacyError`s
plus the host/system errors that Anchor account constraints surface
(`init` on an existing account, a system transfer from an underfunded
payer, deserializing a missing account). -/
inductive TxError where
  | privacy : PrivacyError → TxError
  | accountAlreadyInUse : TxError
  | insufficientFunds : TxError
  | accountNotFound : TxError
  deriving DecidableEq, Repr

/-- `state/shielded_pool.rs`: the `ShieldedPool` account. -/
structure ShieldedPool where
  authority : Pubkey
  merkle_root : Bytes
  next_leaf_index : Nat
  total_shielded : Nat
  is_active : Bool
  created_at : Int
  last_tx_at : Int
  bump : Nat
  padding : Bytes
  deriving DecidableEq, Repr

/-- `state/nullifier.rs`: the `NullifierRecord` account. -/
structure NullifierRecord where
  pool : Pubkey
  nullifier : Bytes
  used_at : Int
  bump : Nat
  deriving DecidableEq, Repr

/-- `state/stealth_account.rs`: the `StealthAccount` account. -/
structure StealthAccount where
  sender : Pubkey
  stealth_address : Bytes
  ephemeral_pubkey : Bytes
  view_tag : Nat
  amount : Nat
  claimed : Bool
  created_at : Int
  bump : Nat
  deriving DecidableEq, Repr

/-- On-ledger state touched by the program: one shielded pool (the
instructions all address a single pool PDA), its lamport balance, the
nullifier records, the stealth accounts with their PDA lamports, and the
lamport balances of the external signer wallets. -/
structure Chain where
  poolAddress : Pubkey
  pool : ShieldedPool
  poolLamports : Nat
  nullifiers : List NullifierRecord
  stealths : List StealthAccount
  stealthLamports : List (Bytes × Nat)
  wallets : List (Pubkey × Nat)
  deriving DecidableEq, Repr

/-- Balance lookup in an association list (absent key reads as 0). -/
def alGet {κ : Type} [DecidableEq κ] : List (κ × Nat) → κ → Nat
  | [], _ => 0
  | (k0, v) :: rest, k => if k0 = k then v else alGet rest k

/-- Balance update in an association list. -/
def alSet {κ : Type} [DecidableEq κ] : List (κ × Nat) → κ → Nat → List (κ × Nat)
  | [], k, v => [(k, v)]
  | (k0, v0) :: rest, k, v =>
      if k0 = k then (k0, v) :: rest else (k0, v0) :: alSet rest k v

/-- Does a `NullifierRecord` for this pool and nullifier hash exist?
Models existence of the PDA at seeds
`[b"nullifier", pool.key(), nullifier_hash]`. -/
def nullifierUsed : List NullifierRecord → Pubkey → Bytes → Bool
  | [], _, _ => false
  | r :: rest, pk, n =>
      if r.pool = pk ∧ r.nullifier = n then true else nullifierUsed rest pk n

/-- Stealth account lookup by its `stealth_address` seed. -/
def findStealth : List StealthAccount → Bytes → Option StealthAccount
  | [], _ => none
  | a :: rest, addr =>
      if a.stealth_address = addr then some a else findStealth rest addr

/-- Set `claimed := true` on the stealth account at the given address. -/
def setClaimed : List StealthAccount → Bytes → List StealthAccount
  | [], _ => []
  | a :: rest, addr =>
      if a.stealth_address = addr then { a with claimed := true } :: rest
      else a :: setClaimed rest addr

/-- Opaque model of the Murkl STARK verifier program id
(`STARK_VERIFIER_ID` in `unshield.rs`). -/
def STARK_VERIFIER_ID : Pubkey := 1000

/-- Proof-buffer layout offset of the `finalized` flag (`unshield.rs`). -/
def OFFSET_FINALIZED : Nat := 40

/-- Proof-buffer layout offset of the nullifier bytes (`unshield.rs`). -/
def OFFSET_NULLIFIER : Nat := 73

/-- Proof-buffer layout offset of the merkle root bytes (`unshield.rs`). -/
def OFFSET_MERKLE_ROOT : Nat := 105

/-- Minimum accepted proof-buffer size (`unshield.rs`). -/
def MIN_BUFFER_SIZE : Nat := 137

/-- The `verifier_buffer` account handed to `unshield`: its owner program
and its raw data bytes. -/
structure VerifierBuffer where
  owner : Pubkey
  data : Bytes
  deriving DecidableEq, Repr

/-- A 32-byte slice `&data[off..off + 32]` of an account data buffer. -/
def slice32 (l : Bytes) (off : Nat) : Bytes := (l.drop off).take 32

/-- `init_pool` handler: creates the pool account and writes its fields
(`instructions/init_pool.rs`).  The ambient signer wallets are the
remaining ledger state. -/
def initPool (poolAddress authority : Pubkey) (bump : Nat) (now : Int)
    (wallets : List (Pubkey × Nat)) : Chain :=
  { poolAddress := poolAddress
    pool :=
      { authority := authority
        merkle_root := List.replicate 32 0
        next_leaf_index := 0
        total_shielded := 0
        is_active := true
        created_at := now
        last_tx_at := now
        bump := bump
        padding := List.replicate 32 0 }
    poolLamports := 0
    nullifiers := []
    stealths := []
    stealthLamports := []
    wallets := wallets }

/-- `shield` run in source order (`instructions/shield.rs` handler behind
the `Shield` account constraints): pool `is_active` constraint, then
`require!(amount > 0)`, the system transfer depositor → pool, the checked
bumps of `total_shielded` and `next_leaf_index`, and the `last_tx_at`
stamp.  `commitment` is only logged by the handler; `new_root` is part of
the exposed instruction signature in `lib.rs` but the handler in
`shield.rs` does not accept it (the `lib.rs` call site passes it anyway),
so neither affects the state. -/
def shieldRaw (s : Chain) (depositor : Pubkey) (amount : Nat)
    (commitment new_root : Bytes) (now : Int) : Chain × Option TxError :=
  if ¬ s.pool.is_active = true then (s, some (.privacy .PoolNotActive))
  else if ¬ amount > 0 then (s, some (.privacy .InvalidAmount))
  else if alGet s.wallets depositor < amount then (s, some .insufficientFunds)
  else
    -- the system transfer depositor → pool ran; each later abort leaf
    -- carries the mutations applied before it
    match checkedAdd64 s.pool.total_shielded amount with
    | none =>
        ({ s with
            wallets := alSet s.wallets depositor
              (alGet s.wallets depositor - amount)
            poolLamports := s.poolLamports + amount },
         some (.privacy .InvalidAmount))
    | some t =>
      match checkedAdd64 s.pool.next_leaf_index 1 with
      | none =>
          ({ s with
              wallets := alSet s.wallets depositor
                (alGet s.wallets depositor - amount)
              poolLamports := s.poolLamports + amount
              pool := { s.pool with total_shielded := t } },
           some (.privacy .InvalidAmount))
      | some i =>
          ({ s with
              wallets := alSet s.wallets depositor
                (alGet s.wallets depositor - amount)
              poolLamports := s.poolLamports + amount
              pool := { s.pool with
                          total_shielded := t,
                          next_leaf_index := i,
                          last_tx_at := now } },
           none)

/-- The non-mutating check chain of `unshield`, in source order
(`instructions/unshield.rs`): the `Unshield` account constraints in
declaration order (pool `is_active`; `init` of the nullifier PDA, which
fails if the record already exists; the verifier-buffer owner check),
then the handler's `require!`s: `amount > 0`, buffer size, `finalized`
flag, nullifier and merkle-root slice comparisons, pool balance.  Yields
the first failing check's error, `none` when every check passes. -/
def unshieldGate (s : Chain) (amount : Nat) (nullifier_hash new_root : Bytes)
    (buf : VerifierBuffer) : Option TxError :=
  if ¬ s.pool.is_active = true then some (.privacy .PoolNotActive)
  else if nullifierUsed s.nullifiers s.poolAddress nullifier_hash = true then
    some .accountAlreadyInUse
  else if ¬ buf.owner = STARK_VERIFIER_ID then
    some (.privacy .InvalidProofBuffer)
  else if ¬ amount > 0 then some (.privacy .InvalidAmount)
  else if buf.data.length < MIN_BUFFER_SIZE then
    some (.privacy .InvalidProofBuffer)
  else if ¬ buf.data.getD OFFSET_FINALIZED 0 = 1 then
    some (.privacy .ProofNotVerified)
  else if ¬ slice32 buf.data OFFSET_NULLIFIER = nullifier_hash then
    some (.privacy .ProofNullifierMismatch)
  else if ¬ slice32 buf.data OFFSET_MERKLE_ROOT = new_root then
    some (.privacy .ProofMerkleRootMismatch)
  else if ¬ s.pool.total_shielded ≥ amount then
    some (.privacy .InsufficientPoolBalance)
  else none

/-- `unshield` run in source order: the check chain above (it mutates
nothing), then the handler's mutations: nullifier record fields,
`merkle_root := new_root`, checked subtraction of `total_shielded`,
`last_tx_at`, and the manual lamport moves pool → recipient. -/
def unshieldRaw (s : Chain) (recipient : Pubkey) (amount : Nat)
    (nullifier_hash new_root : Bytes) (buf : VerifierBuffer) (now : Int) :
    Chain × Option TxError :=
  match unshieldGate s amount nullifier_hash new_root buf with
  | some e => (s, some e)
  | none =>
    -- mutations begin: nullifier record fields, the root overwrite, the
    -- checked balance updates, then the lamport moves; each abort leaf
    -- carries the mutations applied before it
    match checkedSub64 s.pool.total_shielded amount with
    | none =>
        ({ s with
            nullifiers := { pool := s.poolAddress,
                            nullifier := nullifier_hash,
                            used_at := now, bump := 0 } :: s.nullifiers
            pool := { s.pool with merkle_root := new_root } },
         some (.privacy .InsufficientPoolBalance))
    | some t =>
      match checkedSub64 s.poolLamports amount with
      | none =>
          ({ s with
              nullifiers := { pool := s.poolAddress,
                              nullifier := nullifier_hash,
                              used_at := now, bump := 0 } :: s.nullifiers
              pool := { s.pool with
                          merkle_root := new_root,
                          total_shielded := t,
                          last_tx_at := now } },
           some (.privacy .InsufficientPoolBalance))
      | some pl =>
        match checkedAdd64 (alGet s.wallets recipient) amount with
        | none =>
            ({ s with
                nullifiers := { pool := s.poolAddress,
                                nullifier := nullifier_hash,
                                used_at := now, bump := 0 } :: s.nullifiers
                pool := { s.pool with
                            merkle_root := new_root,
                            total_shielded := t,
                            last_tx_at := now }
                poolLamports := pl },
             some (.privacy .InvalidAmount))
        | some rl =>
            ({ s with
                nullifiers := { pool := s.poolAddress,
                                nullifier := nullifier_hash,
                                used_at := now, bump := 0 } :: s.nullifiers
                pool := { s.pool with
                            merkle_root := new_root,
                            total_shielded := t,
                            last_tx_at := now }
                poolLamports := pl
                wallets := alSet s.wallets recipient rl },
             none)

/-- `send_stealth` run in source order (`instructions/send_stealth.rs`):
`init` of the stealth PDA at seeds `[b"stealth", stealth_address]` (fails
if one exists), then the handler: `require!(amount > 0)`, field writes,
then the system transfer sender → stealth PDA. -/
def sendStealthRaw (s : Chain) (sender : Pubkey)
    (stealth_address ephemeral_pubkey : Bytes) (view_tag amount : Nat)
    (now : Int) : Chain × Option TxError :=
  if (findStealth s.stealths stealth_address).isSome then
    (s, some .accountAlreadyInUse)
  else if ¬ amount > 0 then (s, some (.privacy .InvalidAmount))
  else if alGet s.wallets sender < amount then
    -- the account was created and its fields written before the failing
    -- system transfer
    ({ s with
        stealths :=
          { sender := sender, stealth_address := stealth_address,
            ephemeral_pubkey := ephemeral_pubkey, view_tag := view_tag,
            amount := amount, claimed := false, created_at := now,
            bump := 0 } :: s.stealths
        stealthLamports := alSet s.stealthLamports stealth_address 0 },
     some .insufficientFunds)
  else
    ({ s with
        stealths :=
          { sender := sender, stealth_address := stealth_address,
            ephemeral_pubkey := ephemeral_pubkey, view_tag := view_tag,
            amount := amount, claimed := false, created_at := now,
            bump := 0 } :: s.stealths
        stealthLamports :=
          alSet (alSet s.stealthLamports stealth_address 0) stealth_address
            amount
        wallets := alSet s.wallets sender (alGet s.wallets sender - amount) },
     none)

/-- `claim_stealth` run in source order (`instructions/claim_stealth.rs`):
deserialize the stealth account named by the caller, the `!claimed`
constraint, then the handler: `require!(amount > 0)`, the manual lamport
moves stealth PDA → recipient, and `claimed := true`.  The recipient is
an arbitrary signer: no constraint compares it to `stealth_address`. -/
def claimStealthRaw (s : Chain) (recipient : Pubkey)
    (stealth_address : Bytes) : Chain × Option TxError :=
  match findStealth s.stealths stealth_address with
  | none => (s, some .accountNotFound)
  | some acct =>
    if acct.claimed = true then (s, some (.privacy .AlreadyClaimed))
    else if ¬ acct.amount > 0 then (s, some (.privacy .InvalidAmount))
    else
      match checkedSub64 (alGet s.stealthLamports stealth_address) acct.amount with
      | none => (s, some (.privacy .InsufficientPoolBalance))
      | some pl =>
        match checkedAdd64 (alGet s.wallets recipient) acct.amount with
        | none =>
            ({ s with
                stealthLamports := alSet s.stealthLamports stealth_address pl },
             some (.privacy .InvalidAmount))
        | some rl =>
            ({ s with
                stealthLamports := alSet s.stealthLamports stealth_address pl
                wallets := alSet s.wallets recipient rl
                stealths := setClaimed s.stealths stealth_address },
             none)

/-- Host transaction semantics: a raw run that ended in an error has every
mutation rolled back; a clean run commits its final state. -/
def runTx : Chain × Option TxError → Except TxError Chain
  | (s', none) => .ok s'
  | (_, some e) => .error e

/-- The exposed `shield(amount, commitment, new_root)` instruction. -/
def shield (s : Chain) (depositor : Pubkey) (amount : Nat)
    (commitment new_root : Bytes) (now : Int) : Except TxError Chain :=
  runTx (shieldRaw s depositor amount commitment new_root now)

/-- The exposed `unshield(amount, nullifier_hash, new_root, …)`
instruction (the proof itself lives in the verifier buffer account). -/
def unshield (s : Chain) (recipient : Pubkey) (amount : Nat)
    (nullifier_hash new_root : Bytes) (buf : VerifierBuffer) (now : Int) :
    Except TxError Chain :=
  runTx (unshieldRaw s recipient amount nullifier_hash new_root buf now)

/-- The exposed `send_stealth` instruction. -/
def sendStealth (s : Chain) (sender : Pubkey)
    (stealth_address ephemeral_pubkey : Bytes) (view_tag amount : Nat)
    (now : Int) : Except TxError Chain :=
  runTx (sendStealthRaw s sender stealth_address ephemeral_pubkey view_tag
    amount now)

/-- The exposed `claim_stealth` instruction. -/
def claimStealth (s : Chain) (recipient : Pubkey) (stealth_address : Bytes) :
    Except TxError Chain :=
  runTx (claimStealthRaw s recipient stealth_address)

/-- Observable post-state of a transaction: committed state on success,
the untouched pre-state on failure. -/
def txExec (s : Chain) : Except TxError Chain → Chain
  | .ok s' => s'
  | .error _ => s

/-- Observable post-state of a `shield` call. -/
def shieldExec (s : Chain) (depositor : Pubkey) (amount : Nat)
    (commitment new_root : Bytes) (now : Int) : Chain :=
  txExec s (shield s depositor amount commitment new_root now)

/-- Observable post-state of an `unshield` call. -/
def unshieldExec (s : Chain) (recipient : Pubkey) (amount : Nat)
    (nullifier_hash new_root : Bytes) (buf : VerifierBuffer) (now : Int) :
    Chain :=
  txExec s (unshield s recipient amount nullifier_hash new_root buf now)

/-- Observable post-state of a `send_stealth` call. -/
def sendStealthExec (s : Chain) (sender : Pubkey)
    (stealth_address ephemeral_pubkey : Bytes) (view_tag amount : Nat)
    (now : Int) : Chain :=
  txExec s (sendStealth s sender stealth_address ephemeral_pubkey view_tag
    amount now)

/-- Observable post-state of a `claim_stealth` call. -/
def claimStealthExec (s : Chain) (recipient : Pubkey)
    (stealth_address : Bytes) : Chain :=
  txExec s (claimStealth s recipient stealth_address)

/-- Ledger states reachable through the exposed operations, starting from
a freshly initialized pool. -/
inductive Reachable : Chain → Prop where
  | init (pa a : Pubkey) (b : Nat) (now : Int) (w : List (Pubkey × Nat)) :
      Reachable (initPool pa a b now w)
  | shield (s : Chain) (d : Pubkey) (amt : Nat) (c nr : Bytes) (now : Int) :
      Reachable s → Reachable (shieldExec s d amt c nr now)
  | unshield (s : Chain) (r : Pubkey) (amt : Nat) (nh nr : Bytes)
      (buf : VerifierBuffer) (now : Int) :
      Reachable s → Reachable (unshieldExec s r amt nh nr buf now)
  | sendStealth (s : Chain) (snd : Pubkey) (sa ep : Bytes) (vt amt : Nat)
      (now : Int) :
      Reachable s → Reachable (sendStealthExec s snd sa ep vt amt now)
  | claimStealth (s : Chain) (r : Pubkey) (sa : Bytes) :
      Reachable s → Reachable (claimStealthExec s r sa)

/-- The pool state with its stored merkle root replaced: used to state
that `unshield` never reads the stored root. -/
def setPoolRoot (s : Chain) (r : Bytes) : Chain :=
  { s with pool := { s.pool with merkle_root := r } }

/-- Does a transaction outcome carry `PrivacyError::UnauthorizedClaim`? -/
def raisesUnauthorized : Except TxError Chain → Bool
  | .error (.privacy .UnauthorizedClaim) => true
  | _ => false

/-- Sample nullifier hash (32 bytes of `2`). -/
def N0 : Bytes := List.replicate 32 2

/-- Sample merkle root (32 bytes of `3`). -/
def R0 : Bytes := List.replicate 32 3

/-- A finalized verifier buffer whose recorded nullifier is `N0` and whose
recorded merkle root is `R0` (its 137 bytes laid out per the offsets). -/
def goodBuf : VerifierBuffer :=
  { owner := STARK_VERIFIER_ID
    data := List.replicate 40 0 ++ [1] ++ List.replicate 32 0 ++ N0 ++ R0 }

/-- The same buffer with `finalized = 0`: a proof the verifier has not
accepted. -/
def badBuf : VerifierBuffer :=
  { owner := STARK_VERIFIER_ID
    data := List.replicate 73 0 ++ N0 ++ R0 }

/-- Sample active pool holding 1000 shielded lamports. -/
def basePool : ShieldedPool :=
  { authority := 2, merkle_root := List.replicate 32 0, next_leaf_index := 0,
    total_shielded := 1000, is_active := true, created_at := 0,
    last_tx_at := 0, bump := 255, padding := List.replicate 32 0 }

/-- Sample chain: the pool above, funded with 1000 lamports; wallet `4`
holds 10 lamports and wallet `5` holds none. -/
def baseChain : Chain :=
  { poolAddress := 1, pool := basePool, poolLamports := 1000,
    nullifiers := [], stealths := [], stealthLamports := [],
    wallets := [(4, 10), (5, 0)] }

/-- The sample chain with the pool account's lamports drained (its
bookkeeping still claims 1000 shielded), so the final lamport move of
`unshield` fails after the earlier mutations ran. -/
def lowChain : Chain := { baseChain with poolLamports := 0 }

/-- The sample chain with only 3 shielded lamports. -/
def smallChain : Chain :=
  { baseChain with pool := { basePool with total_shielded := 3 } }

/-- The sample chain with `total_shielded` at the `u64` maximum. -/
def fullChain : Chain :=
  { baseChain with pool := { basePool with total_shielded := U64_MOD - 1 } }

/-- Sample one-time stealth address (32 bytes of `7`). -/
def A7 : Bytes := List.replicate 32 7

/-- An unclaimed escrow of 5 lamports at stealth address `A7`. -/
def stealthAcct : StealthAccount :=
  { sender := 4, stealth_address := A7,
    ephemeral_pubkey := List.replicate 32 8, view_tag := 1, amount := 5,
    claimed := false, created_at := 0, bump := 0 }

/-- The sample chain with that pending stealth escrow on it. -/
def stealthChain : Chain :=
  { baseChain with stealths := [stealthAcct], stealthLamports := [(A7, 5)] }

/-! ## Helper lemmas -/

/-- A transaction that failed leaves the observable state untouched. -/
theorem txExec_error (s : Chain) (r : Except TxError Chain) (e : TxError)
    (h : r = .error e) : txExec s r = s := by
  rw [h]; rfl

/-- The observable post-state is the pre-state or the raw run's state. -/
theorem txExec_runTx_cases (s : Chain) (p : Chain × Option TxError) :
    txExec s (runTx p) = s ∨ txExec s (runTx p) = p.1 := by
  rcases p with ⟨s', e⟩
  cases e <;> simp [runTx, txExec]

/-- Updating a key then reading it back gives the written value. -/
theorem alGet_alSet_self {κ : Type} [DecidableEq κ]
    (m : List (κ × Nat)) (k : κ) (v : Nat) : alGet (alSet m k v) k = v := by
  induction m with
  | nil => simp [alGet, alSet]
  | cons p rest ih =>
      rcases p with ⟨k0, v0⟩
      by_cases h : k0 = k <;> simp [alGet, alSet, h, ih]

/-- A raw `shield` run never touches `is_active`, `authority` or
`created_at`. -/
theorem shieldRaw_meta (s : Chain) (d : Pubkey) (amt : Nat) (c nr : Bytes)
    (now : Int) :
    ((shieldRaw s d amt c nr now).1).pool.is_active = s.pool.is_active ∧
    ((shieldRaw s d amt c nr now).1).pool.authority = s.pool.authority ∧
    ((shieldRaw s d amt c nr now).1).pool.created_at = s.pool.created_at := by
  unfold shieldRaw
  dsimp only
  repeat' split
  all_goals exact ⟨rfl, rfl, rfl⟩

/-- A raw `unshield` run never touches `is_active`, `authority` or
`created_at`. -/
theorem unshieldRaw_meta (s : Chain) (r : Pubkey) (amt : Nat) (nh nr : Bytes)
    (buf : VerifierBuffer) (now : Int) :
    ((unshieldRaw s r amt nh nr buf now).1).pool.is_active = s.pool.is_active ∧
    ((unshieldRaw s r amt nh nr buf now).1).pool.authority = s.pool.authority ∧
    ((unshieldRaw s r amt nh nr buf now).1).pool.created_at
      = s.pool.created_at := by
  unfold unshieldRaw
  repeat' split
  all_goals exact ⟨rfl, rfl, rfl⟩

/-- When the check chain of `unshield` passes, every individual check
holds. -/
theorem unshieldGate_none (s : Chain) (amt : Nat) (nh nr : Bytes)
    (buf : VerifierBuffer)
    (h : unshieldGate s amt nh nr buf = none) :
    s.pool.is_active = true ∧
    nullifierUsed s.nullifiers s.poolAddress nh = false ∧
    buf.owner = STARK_VERIFIER_ID ∧
    amt > 0 ∧
    ¬ buf.data.length < MIN_BUFFER_SIZE ∧
    buf.data.getD OFFSET_FINALIZED 0 = 1 ∧
    slice32 buf.data OFFSET_NULLIFIER = nh ∧
    slice32 buf.data OFFSET_MERKLE_ROOT = nr ∧
    s.pool.total_shielded ≥ amt := by
  unfold unshieldGate at h
  repeat' split at h
  all_goals simp_all
  omega

/-- A committed transaction is exactly a raw run that ended cleanly. -/
theorem runTx_ok (p : Chain × Option TxError) (s' : Chain)
    (h : runTx p = .ok s') : p = (s', none) := by
  rcases p with ⟨s1, e⟩
  cases e with
  | none => simp only [runTx, Except.ok.injEq] at h; rw [h]
  | some e => simp [runTx] at h

/-- Inversion of `checked_add` success. -/
theorem checkedAdd64_some (a b t : Nat) (h : checkedAdd64 a b = some t) :
    t = a + b ∧ a + b < U64_MOD := by
  unfold checkedAdd64 at h
  split at h <;> simp_all

/-- Inversion of `checked_sub` success. -/
theorem checkedSub64_some (a b t : Nat) (h : checkedSub64 a b = some t) :
    t = a - b ∧ b ≤ a := by
  unfold checkedSub64 at h
  split at h <;> simp_all

/-- Structure of a successful `unshield`: the checks passed, the pool
address and metadata survive, the root is overwritten with the argument,
the nullifier record is appended, and the balance drops by `amt`. -/
theorem unshield_ok_shape (s : Chain) (r : Pubkey) (amt : Nat) (nh nr : Bytes)
    (buf : VerifierBuffer) (now : Int) (s' : Chain)
    (h : unshield s r amt nh nr buf now = .ok s') :
    s'.poolAddress = s.poolAddress ∧
    s'.pool.is_active = s.pool.is_active ∧
    s'.pool.merkle_root = nr ∧
    s'.nullifiers = ({ pool := s.poolAddress, nullifier := nh,
                       used_at := now, bump := 0 } : NullifierRecord)
      :: s.nullifiers ∧
    s'.pool.total_shielded = s.pool.total_shielded - amt ∧
    s.pool.is_active = true := by
  unfold unshield at h
  have hr := runTx_ok _ _ h
  have hact : s.pool.is_active = true := by
    rcases hg : unshieldGate s amt nh nr buf with _ | e
    · exact (unshieldGate_none s amt nh nr buf hg).1
    · unfold unshieldRaw at hr; rw [hg] at hr; simp at hr
  refine ⟨?_, ?_, ?_, ?_, ?_, hact⟩ <;>
  · unfold unshieldRaw at hr
    rcases hg : unshieldGate s amt nh nr buf with _ | e <;> rw [hg] at hr
    · rcases h1 : checkedSub64 s.pool.total_shielded amt with _ | t <;>
        rw [h1] at hr
      · simp at hr
      · rcases h2 : checkedSub64 s.poolLamports amt with _ | pl <;>
          rw [h2] at hr
        · simp at hr
        · rcases h3 : checkedAdd64 (alGet s.wallets r) amt with _ | rl <;>
            rw [h3] at hr
          · simp at hr
          · have hs : _ = s' := congrArg Prod.fst hr
            subst hs
            simp [(checkedSub64_some _ _ _ h1).1]
    · simp at hr

/-- A raw `send_stealth` run never touches the pool account. -/
theorem sendStealthRaw_pool (s : Chain) (snd : Pubkey) (sa ep : Bytes)
    (vt amt : Nat) (now : Int) :
    ((sendStealthRaw s snd sa ep vt amt now).1).pool = s.pool := by
  unfold sendStealthRaw
  repeat' split
  all_goals rfl

/-- A raw `claim_stealth` run never touches the pool account. -/
theorem claimStealthRaw_pool (s : Chain) (r : Pubkey) (sa : Bytes) :
    ((claimStealthRaw s r sa).1).pool = s.pool := by
  unfold claimStealthRaw
  repeat' split
  all_goals rfl

/-- Structure of a successful `shield`: the checks passed, the balance
and leaf counter are bumped, and the rest of the pool — the merkle root
in particular — is untouched. -/
theorem shield_ok_shape (s : Chain) (d : Pubkey) (amt : Nat) (c nr : Bytes)
    (now : Int) (s' : Chain)
    (h : shield s d amt c nr now = .ok s') :
    s'.pool.total_shielded = s.pool.total_shielded + amt ∧
    s'.pool.next_leaf_index = s.pool.next_leaf_index + 1 ∧
    s'.pool.merkle_root = s.pool.merkle_root ∧
    s'.pool.is_active = s.pool.is_active ∧
    s'.poolAddress = s.poolAddress ∧
    s'.nullifiers = s.nullifiers ∧
    s.pool.is_active = true ∧ amt > 0 := by
  unfold shield at h
  have hr := runTx_ok _ _ h
  unfold shieldRaw at hr
  by_cases hact : s.pool.is_active = true
  · simp only [hact, not_true_eq_false, if_false] at hr
    by_cases hamt : amt > 0
    · rw [if_neg (by omega)] at hr
      split at hr
      · simp at hr
      · rcases h1 : checkedAdd64 s.pool.total_shielded amt with _ | t <;>
          rw [h1] at hr
        · simp at hr
        · rcases h2 : checkedAdd64 s.pool.next_leaf_index 1 with _ | i <;>
            rw [h2] at hr
          · simp at hr
          · have hs : _ = s' := congrArg Prod.fst hr
            subst hs
            simp [(checkedAdd64_some _ _ _ h1).1,
              (checkedAdd64_some _ _ _ h2).1, hact, hamt]
    · rw [if_pos (by omega)] at hr
      simp at hr
  · rw [if_pos (by simpa using hact)] at hr
    simp at hr

/-- Structure of a successful `send_stealth`: the address was free, the
record is created unclaimed with the escrowed amount, and the escrow PDA
holds exactly `amt`. -/
theorem sendStealth_ok_shape (s : Chain) (snd : Pubkey) (sa ep : Bytes)
    (vt amt : Nat) (now : Int) (s' : Chain)
    (h : sendStealth s snd sa ep vt amt now = .ok s') :
    s'.stealths = ({ sender := snd, stealth_address := sa,
                     ephemeral_pubkey := ep, view_tag := vt, amount := amt,
                     claimed := false, created_at := now,
                     bump := 0 } : StealthAccount) :: s.stealths ∧
    alGet s'.stealthLamports sa = amt ∧
    s'.wallets = alSet s.wallets snd (alGet s.wallets snd - amt) ∧
    s'.pool = s.pool ∧
    findStealth s.stealths sa = none ∧ amt > 0 := by
  unfold sendStealth at h
  have hr := runTx_ok _ _ h
  unfold sendStealthRaw at hr
  split at hr
  · simp at hr
  · split at hr
    · simp at hr
    · split at hr
      · simp at hr
      · have hs : _ = s' := congrArg Prod.fst hr
        subst hs
        rename_i hfree hamt _
        refine ⟨rfl, ?_, rfl, rfl, ?_, by omega⟩
        · exact alGet_alSet_self _ _ _
        · cases hf : findStealth s.stealths sa with
          | none => rfl
          | some a => rw [hf] at hfree; simp at hfree

/-- `shield` leaves `is_active`, `authority` and `created_at` alone. -/
theorem shieldExec_meta (s : Chain) (d : Pubkey) (amt : Nat) (c nr : Bytes)
    (now : Int) :
    (shieldExec s d amt c nr now).pool.is_active = s.pool.is_active ∧
    (shieldExec s d amt c nr now).pool.authority = s.pool.authority ∧
    (shieldExec s d amt c nr now).pool.created_at = s.pool.created_at := by
  unfold shieldExec shield
  rcases txExec_runTx_cases s (shieldRaw s d amt c nr now) with h | h <;> rw [h]
  · exact ⟨rfl, rfl, rfl⟩
  · exact shieldRaw_meta s d amt c nr now

/-- `unshield` leaves `is_active`, `authority` and `created_at` alone. -/
theorem unshieldExec_meta (s : Chain) (r : Pubkey) (amt : Nat) (nh nr : Bytes)
    (buf : VerifierBuffer) (now : Int) :
    (unshieldExec s r amt nh nr buf now).pool.is_active = s.pool.is_active ∧
    (unshieldExec s r amt nh nr buf now).pool.authority = s.pool.authority ∧
    (unshieldExec s r amt nh nr buf now).pool.created_at
      = s.pool.created_at := by
  unfold unshieldExec unshield
  rcases txExec_runTx_cases s (unshieldRaw s r amt nh nr buf now) with h | h <;>
    rw [h]
  · exact ⟨rfl, rfl, rfl⟩
  · exact unshieldRaw_meta s r amt nh nr buf now

/-- `send_stealth` leaves the pool account alone. -/
theorem sendStealthExec_pool (s : Chain) (snd : Pubkey) (sa ep : Bytes)
    (vt amt : Nat) (now : Int) :
    (sendStealthExec s snd sa ep vt amt now).pool = s.pool := by
  unfold sendStealthExec sendStealth
  rcases txExec_runTx_cases s (sendStealthRaw s snd sa ep vt amt now) with
    h | h <;> rw [h]
  exact sendStealthRaw_pool s snd sa ep vt amt now

/-- `claim_stealth` leaves the pool account alone. -/
theorem claimStealthExec_pool (s : Chain) (r : Pubkey) (sa : Bytes) :
    (claimStealthExec s r sa).pool = s.pool := by
  unfold claimStealthExec claimStealth
  rcases txExec_runTx_cases s (claimStealthRaw s r sa) with h | h <;> rw [h]
  exact claimStealthRaw_pool s r sa

/-- Every reachable pool state is active. -/
theorem reachable_active (s : Chain) (h : Reachable s) :
    s.pool.is_active = true := by
  induction h with
  | init pa a b now w => rfl
  | shield s d amt c nr now hs ih =>
      rw [(shieldExec_meta s d amt c nr now).1]; exact ih
  | unshield s r amt nh nr buf now hs ih =>
      rw [(unshieldExec_meta s r amt nh nr buf now).1]; exact ih
  | sendStealth s snd sa ep vt amt now hs ih =>
      rw [sendStealthExec_pool s snd sa ep vt amt now]; exact ih
  | claimStealth s r sa hs ih =>
      rw [claimStealthExec_pool s r sa]; exact ih

/-- An active pool never triggers the `PoolNotActive` abort of the
`unshield` check chain. -/
theorem unshieldGate_no_inactive (s : Chain) (amt : Nat) (nh nr : Bytes)
    (buf : VerifierBuffer) (h : s.pool.is_active = true) :
    unshieldGate s amt nh nr buf ≠ some (.privacy .PoolNotActive) := by
  unfold unshieldGate
  rw [if_neg (by simp [h])]
  repeat' split
  all_goals simp

/-- A failed transaction reports exactly the raw run's error. -/
theorem runTx_error_inv (p : Chain × Option TxError) (e : TxError)
    (h : runTx p = .error e) : p.2 = some e := by
  rcases p with ⟨s1, e'⟩
  cases e' with
  | none => simp [runTx] at h
  | some f => simp only [runTx, Except.error.injEq] at h; rw [h]

/-- An active pool never makes a raw `shield` run abort with
`PoolNotActive`. -/
theorem shieldRaw_no_inactive (s : Chain) (d : Pubkey) (amt : Nat)
    (c nr : Bytes) (now : Int) (h : s.pool.is_active = true) :
    (shieldRaw s d amt c nr now).2 ≠ some (.privacy .PoolNotActive) := by
  unfold shieldRaw
  rw [if_neg (by simp [h])]
  repeat' split
  all_goals simp

/-- An active pool never makes `shield` fail with `PoolNotActive`. -/
theorem shield_no_inactive (s : Chain) (d : Pubkey) (amt : Nat) (c nr : Bytes)
    (now : Int) (h : s.pool.is_active = true) :
    shield s d amt c nr now ≠ .error (.privacy .PoolNotActive) := by
  intro hc
  unfold shield at hc
  exact shieldRaw_no_inactive s d amt c nr now h (runTx_error_inv _ _ hc)

/-- An active pool never makes a raw `unshield` run abort with
`PoolNotActive`. -/
theorem unshieldRaw_no_inactive (s : Chain) (r : Pubkey) (amt : Nat)
    (nh nr : Bytes) (buf : VerifierBuffer) (now : Int)
    (h : s.pool.is_active = true) :
    (unshieldRaw s r amt nh nr buf now).2
      ≠ some (.privacy .PoolNotActive) := by
  unfold unshieldRaw
  rcases hg : unshieldGate s amt nh nr buf with _ | e <;> try rw [hg]
  · repeat' split
    all_goals simp_all
  · intro hc
    apply unshieldGate_no_inactive s amt nh nr buf h
    rw [hg]
    simpa using hc

/-- An active pool never makes `unshield` fail with `PoolNotActive`. -/
theorem unshield_no_inactive (s : Chain) (r : Pubkey) (amt : Nat)
    (nh nr : Bytes) (buf : VerifierBuffer) (now : Int)
    (h : s.pool.is_active = true) :
    unshield s r amt nh nr buf now ≠ .error (.privacy .PoolNotActive) := by
  intro hc
  unfold unshield at hc
  exact unshieldRaw_no_inactive s r amt nh nr buf now h (runTx_error_inv _ _ hc)

/-! ## Claims -/

/-- Claim C3: contrary to the claim, a successful
`shield(amount, commitment, new_root)` leaves the stored accumulator
root unchanged — the handler never writes `merkle_root` and does not
even accept the `new_root` parameter that `lib.rs` passes it — while it
does stamp `last_tx_at`.  Evaluated at a concrete pool whose stored root
differs from the submitted `new_root`. -/
theorem claim_C3 :
    shield baseChain 4 1 (List.replicate 32 9) (List.replicate 32 1) 5
      = Except.ok (shieldExec baseChain 4 1 (List.replicate 32 9)
          (List.replicate 32 1) 5) ∧
    (shieldExec baseChain 4 1 (List.replicate 32 9) (List.replicate 32 1)
      5).pool.merkle_root = baseChain.pool.merkle_root ∧
    decide (baseChain.pool.merkle_root = List.replicate 32 1) = false ∧
    (shieldExec baseChain 4 1 (List.replicate 32 9) (List.replicate 32 1)
      5).pool.last_tx_at = 5 :=
  ⟨rfl, rfl, rfl, rfl⟩

/-- Claim C4 (amended): a successful `shield` adds exactly `amt` to
`total_shielded` and exactly 1 to `next_leaf_index`; and when
`total_shielded + amt` leaves the `u64` range the operation fails — with
`InvalidAmount`, the error the code reuses for a failed checked add (the
error enum has no `Overflow` variant) — rather than wrapping, leaving
the observable state unchanged. -/
theorem claim_C4 :
    (∀ (s : Chain) (d : Pubkey) (amt : Nat) (c nr : Bytes) (now : Int)
        (s' : Chain), shield s d amt c nr now = .ok s' →
      s'.pool.total_shielded = s.pool.total_shielded + amt ∧
      s'.pool.next_leaf_index = s.pool.next_leaf_index + 1) ∧
    (∀ (s : Chain) (d : Pubkey) (amt : Nat) (c nr : Bytes) (now : Int),
      s.pool.is_active = true → amt > 0 → amt ≤ alGet s.wallets d →
      U64_MOD ≤ s.pool.total_shielded + amt →
      shield s d amt c nr now = .error (.privacy .InvalidAmount) ∧
      shieldExec s d amt c nr now = s) := by
  constructor
  · intro s d amt c nr now s' h
    obtain ⟨h1, h2, -⟩ := shield_ok_shape s d amt c nr now s' h
    exact ⟨h1, h2⟩
  · intro s d amt c nr now hact hamt hfund hovf
    have herr : shield s d amt c nr now = .error (.privacy .InvalidAmount) := by
      have hnone : checkedAdd64 s.pool.total_shielded amt = none := by
        unfold checkedAdd64
        rw [if_neg (by omega)]
      unfold shield shieldRaw
      rw [if_neg (by simp [hact]), if_neg (by omega), if_neg (by omega),
        hnone]
      rfl
    refine ⟨herr, ?_⟩
    unfold shieldExec
    exact txExec_error s _ _ herr

/-- Claim C4, counterexample to the claim as stated: at a pool whose
`total_shielded` is the `u64` maximum, a 1-lamport `shield` fails with
`InvalidAmount`, not with an `Overflow` error (`PrivacyError` has no
such variant), and the pool is unchanged. -/
theorem claim_C4_cex :
    shield fullChain 4 1 (List.replicate 32 9) (List.replicate 32 1) 5
      = Except.error (TxError.privacy PrivacyError.InvalidAmount) ∧
    shieldExec fullChain 4 1 (List.replicate 32 9) (List.replicate 32 1) 5
      = fullChain ∧
    decide (U64_MOD ≤ fullChain.pool.total_shielded + 1) = true :=
  ⟨rfl, rfl, rfl⟩

/-- Claim C6: contrary to the claim, `claim_stealth` performs no
authorization check at all: a signer unrelated to the recorded
`stealth_address` (and distinct from the sender) successfully claims the
escrow and receives its 5 lamports, and no execution of `claim_stealth`
ever raises `UnauthorizedClaim`. -/
theorem claim_C6 :
    claimStealth stealthChain 42 A7
      = Except.ok (claimStealthExec stealthChain 42 A7) ∧
    alGet (claimStealthExec stealthChain 42 A7).wallets 42 = 5 ∧
    (findStealth (claimStealthExec stealthChain 42 A7).stealths A7).map
      StealthAccount.claimed = some true ∧
    decide (stealthAcct.sender = 42) = false ∧
    (∀ (s : Chain) (r : Pubkey) (sa : Bytes),
      raisesUnauthorized (claimStealth s r sa) = false) := by
  refine ⟨rfl, rfl, rfl, rfl, ?_⟩
  intro s r sa
  unfold claimStealth claimStealthRaw
  repeat' split
  all_goals rfl


/-- Claim C8: each exposed operation is all-or-nothing: whenever it
fails, the observable post-state equals the pre-state.  The final three
conjuncts show the rollback is load-bearing: at a concrete chain whose
pool account lacks the lamports its bookkeeping promises, the raw
`unshield` run aborts only after mutating the pool record, yet the
exposed post-state is byte-for-byte the pre-state. -/
theorem claim_C8 :
    (∀ (s : Chain) (d : Pubkey) (amt : Nat) (c nr : Bytes) (now : Int)
        (e : TxError), shield s d amt c nr now = .error e →
      shieldExec s d amt c nr now = s) ∧
    (∀ (s : Chain) (r : Pubkey) (amt : Nat) (nh nr : Bytes)
        (buf : VerifierBuffer) (now : Int) (e : TxError),
      unshield s r amt nh nr buf now = .error e →
      unshieldExec s r amt nh nr buf now = s) ∧
    (∀ (s : Chain) (snd : Pubkey) (sa ep : Bytes) (vt amt : Nat) (now : Int)
        (e : TxError), sendStealth s snd sa ep vt amt now = .error e →
      sendStealthExec s snd sa ep vt amt now = s) ∧
    (∀ (s : Chain) (r : Pubkey) (sa : Bytes) (e : TxError),
      claimStealth s r sa = .error e → claimStealthExec s r sa = s) ∧
    (unshieldRaw lowChain 5 300 N0 R0 goodBuf 7).2
      = some (.privacy .InsufficientPoolBalance) ∧
    decide ((unshieldRaw lowChain 5 300 N0 R0 goodBuf 7).1 = lowChain)
      = false ∧
    unshieldExec lowChain 5 300 N0 R0 goodBuf 7 = lowChain := by
  refine ⟨?_, ?_, ?_, ?_, rfl, rfl, rfl⟩
  · intro s d amt c nr now e h
    unfold shieldExec
    exact txExec_error s _ _ h
  · intro s r amt nh nr buf now e h
    unfold unshieldExec
    exact txExec_error s _ _ h
  · intro s snd sa ep vt amt now e h
    unfold sendStealthExec
    exact txExec_error s _ _ h
  · intro s r sa e h
    unfold claimStealthExec
    exact txExec_error s _ _ h

/-- Claim C9: `unshield` never reads the pool's stored merkle root — its
outcome is identical for any two stored roots — it compares the proof
buffer's root slice only against the caller-supplied `new_root`, and on
every success it overwrites the stored root with `new_root`.  The
concrete conjuncts exhibit a success whose proof root differs from the
stored root. -/
theorem claim_C9 :
    (∀ (s : Chain) (r1 r2 : Bytes) (rc : Pubkey) (amt : Nat) (nh nr : Bytes)
        (buf : VerifierBuffer) (now : Int),
      unshield (setPoolRoot s r1) rc amt nh nr buf now
        = unshield (setPoolRoot s r2) rc amt nh nr buf now) ∧
    (∀ (s : Chain) (rc : Pubkey) (amt : Nat) (nh nr : Bytes)
        (buf : VerifierBuffer) (now : Int) (s' : Chain),
      unshield s rc amt nh nr buf now = .ok s' →
      s'.pool.merkle_root = nr) ∧
    unshield baseChain 5 300 N0 R0 goodBuf 7
      = Except.ok (unshieldExec baseChain 5 300 N0 R0 goodBuf 7) ∧
    decide (baseChain.pool.merkle_root
      = slice32 goodBuf.data OFFSET_MERKLE_ROOT) = false ∧
    (unshieldExec baseChain 5 300 N0 R0 goodBuf 7).pool.merkle_root
      = R0 := by
  refine ⟨?_, ?_, rfl, rfl, rfl⟩
  · intro s r1 r2 rc amt nh nr buf now
    unfold unshield runTx unshieldRaw
    have hgate : unshieldGate (setPoolRoot s r1) amt nh nr buf
        = unshieldGate (setPoolRoot s r2) amt nh nr buf := rfl
    rw [hgate]
    rcases hg : unshieldGate (setPoolRoot s r2) amt nh nr buf with _ | e <;>
      try rw [hg]
    · rfl
    · rfl
  · intro s rc amt nh nr buf now s' h
    exact (unshield_ok_shape s rc amt nh nr buf now s' h).2.2.1

/-- Claim C10: `init_pool` activates the pool; no exposed operation ever
changes `is_active`, `authority` or `created_at`; hence every reachable
pool state is active and the `PoolNotActive` abort branch of `shield`
and `unshield` never fires on a reachable state. -/
theorem claim_C10 :
    (∀ (pa a : Pubkey) (b : Nat) (now : Int) (w : List (Pubkey × Nat)),
      (initPool pa a b now w).pool.is_active = true) ∧
    (∀ (s : Chain) (d : Pubkey) (amt : Nat) (c nr : Bytes) (now : Int),
      (shieldExec s d amt c nr now).pool.is_active = s.pool.is_active ∧
      (shieldExec s d amt c nr now).pool.authority = s.pool.authority ∧
      (shieldExec s d amt c nr now).pool.created_at = s.pool.created_at) ∧
    (∀ (s : Chain) (r : Pubkey) (amt : Nat) (nh nr : Bytes)
        (buf : VerifierBuffer) (now : Int),
      (unshieldExec s r amt nh nr buf now).pool.is_active
        = s.pool.is_active ∧
      (unshieldExec s r amt nh nr buf now).pool.authority
        = s.pool.authority ∧
      (unshieldExec s r amt nh nr buf now).pool.created_at
        = s.pool.created_at) ∧
    (∀ (s : Chain) (snd : Pubkey) (sa ep : Bytes) (vt amt : Nat) (now : Int),
      (sendStealthExec s snd sa ep vt amt now).pool = s.pool) ∧
    (∀ (s : Chain) (r : Pubkey) (sa : Bytes),
      (claimStealthExec s r sa).pool = s.pool) ∧
    (∀ s : Chain, Reachable s → s.pool.is_active = true) ∧
    (∀ (s : Chain) (d : Pubkey) (amt : Nat) (c nr : Bytes) (now : Int),
      Reachable s →
      shield s d amt c nr now ≠ .error (.privacy .PoolNotActive)) ∧
    (∀ (s : Chain) (r : Pubkey) (amt : Nat) (nh nr : Bytes)
        (buf : VerifierBuffer) (now : Int), Reachable s →
      unshield s r amt nh nr buf now ≠ .error (.privacy .PoolNotActive)) := by
  refine ⟨fun pa a b now w => rfl, shieldExec_meta, unshieldExec_meta,
    sendStealthExec_pool, claimStealthExec_pool, reachable_active, ?_, ?_⟩
  · intro s d amt c nr now hs
    exact shield_no_inactive s d amt c nr now (reachable_active s hs)
  · intro s r amt nh nr buf now hs
    exact unshield_no_inactive s r amt nh nr buf now (reachable_active s hs)


/-- A failing check chain makes `unshield` abort with that check's error
and leave the state untouched. -/
theorem unshield_gate_error (s : Chain) (r : Pubkey) (amt : Nat)
    (nh nr : Bytes) (buf : VerifierBuffer) (now : Int) (e : TxError)
    (hg : unshieldGate s amt nh nr buf = some e) :
    unshield s r amt nh nr buf now = .error e ∧
    unshieldExec s r amt nh nr buf now = s := by
  have hraw : unshieldRaw s r amt nh nr buf now = (s, some e) := by
    unfold unshieldRaw; rw [hg]
  exact ⟨by unfold unshield; rw [hraw]; rfl,
         by unfold unshieldExec unshield; rw [hraw]; rfl⟩

/-- Claim C1 (amended): with an active pool and a fresh nullifier, an
`unshield` whose proof buffer fails validation — wrong owner, or (with a
positive amount) an undersized buffer, an unfinalized proof, a nullifier
mismatch or a merkle-root mismatch — aborts with the corresponding proof
error: `InvalidProofBuffer`, `ProofNotVerified`,
`ProofNullifierMismatch` or `ProofMerkleRootMismatch` (the error enum
has no `InvalidProof` variant), regardless of the pool balance, with the
observable state unchanged. -/
theorem claim_C1 (s : Chain) (r : Pubkey) (amt : Nat) (nh nr : Bytes)
    (buf : VerifierBuffer) (now : Int)
    (hact : s.pool.is_active = true)
    (hfresh : nullifierUsed s.nullifiers s.poolAddress nh = false)
    (hbad : ¬ buf.owner = STARK_VERIFIER_ID ∨
      (amt > 0 ∧ (buf.data.length < MIN_BUFFER_SIZE ∨
        ¬ buf.data.getD OFFSET_FINALIZED 0 = 1 ∨
        ¬ slice32 buf.data OFFSET_NULLIFIER = nh ∨
        ¬ slice32 buf.data OFFSET_MERKLE_ROOT = nr))) :
    (∃ e : PrivacyError,
      unshield s r amt nh nr buf now = .error (.privacy e) ∧
      (e = .InvalidProofBuffer ∨ e = .ProofNotVerified ∨
        e = .ProofNullifierMismatch ∨ e = .ProofMerkleRootMismatch)) ∧
    unshieldExec s r amt nh nr buf now = s := by
  have hg : ∃ e : PrivacyError,
      unshieldGate s amt nh nr buf = some (.privacy e) ∧
      (e = .InvalidProofBuffer ∨ e = .ProofNotVerified ∨
        e = .ProofNullifierMismatch ∨ e = .ProofMerkleRootMismatch) := by
    unfold unshieldGate
    rw [if_neg (by simp [hact]), if_neg (by simp [hfresh])]
    by_cases howner : buf.owner = STARK_VERIFIER_ID
    · have hrest := hbad.resolve_left (by simpa using howner)
      obtain ⟨hamt, hrest⟩ := hrest
      rw [if_neg (by simpa using howner), if_neg (by omega)]
      by_cases hlen : buf.data.length < MIN_BUFFER_SIZE
      · rw [if_pos hlen]
        exact ⟨.InvalidProofBuffer, rfl, by simp⟩
      · rw [if_neg hlen]
        by_cases hfin : buf.data.getD OFFSET_FINALIZED 0 = 1
        · rw [if_neg (by simpa using hfin)]
          by_cases hnul : slice32 buf.data OFFSET_NULLIFIER = nh
          · rw [if_neg (by simpa using hnul)]
            by_cases hroot : slice32 buf.data OFFSET_MERKLE_ROOT = nr
            · rcases hrest with h | h | h | h
              exacts [absurd h hlen, absurd hfin h, absurd hnul h,
                absurd hroot h]
            · rw [if_pos (by simpa using hroot)]
              exact ⟨.ProofMerkleRootMismatch, rfl, by simp⟩
          · rw [if_pos (by simpa using hnul)]
            exact ⟨.ProofNullifierMismatch, rfl, by simp⟩
        · rw [if_pos (by simpa using hfin)]
          exact ⟨.ProofNotVerified, rfl, by simp⟩
    · rw [if_pos (by simpa using howner)]
      exact ⟨.InvalidProofBuffer, rfl, by simp⟩
  obtain ⟨e, hg, he⟩ := hg
  obtain ⟨herr, hexec⟩ := unshield_gate_error s r amt nh nr buf now _ hg
  exact ⟨⟨e, herr, he⟩, hexec⟩

/-- Claim C1, witness: a fresh nullifier, ample balance, and an
unfinalized proof buffer produce a proof error and no state change. -/
theorem claim_C1_witness :
    (∃ e : PrivacyError,
      unshield baseChain 5 300 N0 R0 badBuf 7
        = .error (.privacy e) ∧
      (e = .InvalidProofBuffer ∨ e = .ProofNotVerified ∨
        e = .ProofNullifierMismatch ∨ e = .ProofMerkleRootMismatch)) ∧
    unshieldExec baseChain 5 300 N0 R0 badBuf 7 = baseChain :=
  claim_C1 baseChain 5 300 N0 R0 badBuf 7 rfl rfl
    (Or.inr ⟨by omega, Or.inr (Or.inl (by decide))⟩)

/-- Claim C1, counterexample to the claim as stated: the unaccepted
buffer yields `ProofNotVerified` — no `InvalidProof` error exists — and
when the nullifier is already spent, the same bad buffer yields the
nullifier-record `init` failure instead of any proof error, so the proof
check does not precede the nullifier-existence check. -/
theorem claim_C1_cex :
    unshield baseChain 5 300 N0 R0 badBuf 7
      = Except.error (TxError.privacy PrivacyError.ProofNotVerified) ∧
    nullifierUsed baseChain.nullifiers baseChain.poolAddress N0 = false ∧
    decide (300 ≤ baseChain.pool.total_shielded) = true ∧
    unshield (unshieldExec baseChain 5 300 N0 R0 goodBuf 7) 6 40 N0 R0
      badBuf 8 = Except.error TxError.accountAlreadyInUse :=
  ⟨rfl, rfl, rfl, rfl⟩

/-- Claim C2 (amended): after an `unshield` spending `nh` succeeds, any
second `unshield` reusing the same `(pool, nh)` fails — via the
nullifier record's `init` account constraint, which surfaces the
runtime's account-already-in-use error rather than the declared-but-
never-raised `NullifierAlreadyUsed` — and the pool state, root, and all
balances are unchanged by the attempt. -/
theorem claim_C2 (s : Chain) (r1 : Pubkey) (amt1 : Nat) (nh nr1 : Bytes)
    (buf1 : VerifierBuffer) (now1 : Int) (s' : Chain)
    (h : unshield s r1 amt1 nh nr1 buf1 now1 = .ok s')
    (r2 : Pubkey) (amt2 : Nat) (nr2 : Bytes) (buf2 : VerifierBuffer)
    (now2 : Int) :
    unshield s' r2 amt2 nh nr2 buf2 now2 = .error .accountAlreadyInUse ∧
    unshieldExec s' r2 amt2 nh nr2 buf2 now2 = s' := by
  obtain ⟨hpa, hacteq, hroot, hnul, htot, hact⟩ :=
    unshield_ok_shape s r1 amt1 nh nr1 buf1 now1 s' h
  have hact' : s'.pool.is_active = true := by rw [hacteq]; exact hact
  have hused : nullifierUsed s'.nullifiers s'.poolAddress nh = true := by
    rw [hnul, hpa]
    unfold nullifierUsed
    rw [if_pos ⟨rfl, rfl⟩]
  have hg : unshieldGate s' amt2 nh nr2 buf2 = some .accountAlreadyInUse := by
    unfold unshieldGate
    rw [if_neg (by simp [hact']), if_pos hused]
  exact unshield_gate_error s' r2 amt2 nh nr2 buf2 now2 _ hg

/-- Claim C2, witness: after the sample successful withdrawal of
nullifier `N0`, a reuse of `N0` fails and changes nothing. -/
theorem claim_C2_witness :
    unshield (unshieldExec baseChain 5 300 N0 R0 goodBuf 7) 6 13 N0 R0
      badBuf 9 = .error .accountAlreadyInUse ∧
    unshieldExec (unshieldExec baseChain 5 300 N0 R0 goodBuf 7) 6 13 N0 R0
      badBuf 9 = unshieldExec baseChain 5 300 N0 R0 goodBuf 7 :=
  claim_C2 baseChain 5 300 N0 R0 goodBuf 7 _ rfl 6 13 R0 badBuf 9

/-- Claim C2, counterexample to the claim as stated: the reuse fails
with the account-already-in-use `init` failure, which is not
`PrivacyError::NullifierAlreadyUsed`; the state is unchanged. -/
theorem claim_C2_cex :
    unshield (unshieldExec baseChain 5 300 N0 R0 goodBuf 7) 5 300 N0 R0
      goodBuf 8 = Except.error TxError.accountAlreadyInUse ∧
    decide (TxError.accountAlreadyInUse
      = TxError.privacy PrivacyError.NullifierAlreadyUsed) = false ∧
    unshieldExec (unshieldExec baseChain 5 300 N0 R0 goodBuf 7) 5 300 N0 R0
      goodBuf 8 = unshieldExec baseChain 5 300 N0 R0 goodBuf 7 :=
  ⟨rfl, rfl, rfl⟩

/-- Claim C5 (amended): with every earlier check passing — active pool,
fresh nullifier, owned, sized, finalized and matching proof buffer — an
`unshield` of more than `total_shielded` fails with
`InsufficientPoolBalance` and changes nothing; but this balance check
runs after proof verification, not as step 1. -/
theorem claim_C5 (s : Chain) (r : Pubkey) (amt : Nat) (nh nr : Bytes)
    (buf : VerifierBuffer) (now : Int)
    (hact : s.pool.is_active = true)
    (hfresh : nullifierUsed s.nullifiers s.poolAddress nh = false)
    (howner : buf.owner = STARK_VERIFIER_ID)
    (hlen : ¬ buf.data.length < MIN_BUFFER_SIZE)
    (hfin : buf.data.getD OFFSET_FINALIZED 0 = 1)
    (hnul : slice32 buf.data OFFSET_NULLIFIER = nh)
    (hroot : slice32 buf.data OFFSET_MERKLE_ROOT = nr)
    (hbal : amt > s.pool.total_shielded) :
    unshield s r amt nh nr buf now
      = .error (.privacy .InsufficientPoolBalance) ∧
    unshieldExec s r amt nh nr buf now = s := by
  have hg : unshieldGate s amt nh nr buf
      = some (.privacy .InsufficientPoolBalance) := by
    unfold unshieldGate
    rw [if_neg (by simp [hact]), if_neg (by simp [hfresh]),
      if_neg (by simpa using howner), if_neg (by omega), if_neg hlen,
      if_neg (by simpa using hfin), if_neg (by simpa using hnul),
      if_neg (by simpa using hroot), if_pos (by omega)]
  exact unshield_gate_error s r amt nh nr buf now _ hg

/-- Claim C5, witness: a 5-lamport withdrawal from a pool holding 3,
with an otherwise perfect proof buffer, fails with
`InsufficientPoolBalance` and changes nothing. -/
theorem claim_C5_witness :
    unshield smallChain 5 5 N0 R0 goodBuf 7
      = .error (.privacy .InsufficientPoolBalance) ∧
    unshieldExec smallChain 5 5 N0 R0 goodBuf 7 = smallChain :=
  claim_C5 smallChain 5 5 N0 R0 goodBuf 7 rfl rfl rfl (by decide) rfl rfl
    rfl (by decide)

/-- Claim C5, counterexample to the claim as stated: with
`amount > total_shielded` but an unfinalized buffer, the error is
`ProofNotVerified`, not `InsufficientPoolBalance` — the balance
precondition is not checked as step 1 before proof verification. -/
theorem claim_C5_cex :
    unshield smallChain 5 5 N0 R0 badBuf 7
      = Except.error (TxError.privacy PrivacyError.ProofNotVerified) ∧
    decide (smallChain.pool.total_shielded < 5) = true ∧
    decide (PrivacyError.ProofNotVerified
      = PrivacyError.InsufficientPoolBalance) = false :=
  ⟨rfl, rfl, rfl⟩

/-- A pending escrow whose PDA holds exactly its amount is claimed in
full by any signer whose balance does not overflow. -/
theorem claimStealth_fresh (s : Chain) (r : Pubkey) (sa : Bytes)
    (acct : StealthAccount)
    (hfind : findStealth s.stealths sa = some acct)
    (hclaimed : acct.claimed = false)
    (hamt : acct.amount > 0)
    (hlam : alGet s.stealthLamports sa = acct.amount)
    (hnoovf : alGet s.wallets r + acct.amount < U64_MOD) :
    claimStealth s r sa = .ok
      { s with
        stealthLamports := alSet s.stealthLamports sa 0
        wallets := alSet s.wallets r (alGet s.wallets r + acct.amount)
        stealths := setClaimed s.stealths sa } := by
  have hsub : checkedSub64 (alGet s.stealthLamports sa) acct.amount
      = some 0 := by
    rw [hlam]; unfold checkedSub64; rw [if_pos (le_refl _)]; simp
  have hadd : checkedAdd64 (alGet s.wallets r) acct.amount
      = some (alGet s.wallets r + acct.amount) := by
    unfold checkedAdd64; rw [if_pos hnoovf]
  unfold claimStealth claimStealthRaw
  rw [hfind]
  dsimp only
  rw [if_neg (by simp [hclaimed]), if_neg (by omega), hsub, hadd]
  rfl

/-- A claimed escrow rejects every further claim with `AlreadyClaimed`
and changes nothing. -/
theorem claimStealth_already (s : Chain) (r : Pubkey) (sa : Bytes)
    (acct : StealthAccount)
    (hfind : findStealth s.stealths sa = some acct)
    (hclaimed : acct.claimed = true) :
    claimStealth s r sa = .error (.privacy .AlreadyClaimed) ∧
    claimStealthExec s r sa = s := by
  have hraw : claimStealthRaw s r sa = (s, some (.privacy .AlreadyClaimed)) := by
    unfold claimStealthRaw
    rw [hfind]
    dsimp only
    rw [if_pos hclaimed]
  exact ⟨by unfold claimStealth; rw [hraw]; rfl,
         by unfold claimStealthExec claimStealth; rw [hraw]; rfl⟩

/-- Claim C7: a successful `send_stealth` of 5 lamports followed by a
`claim_stealth` transfers exactly 5 lamports to the claiming signer,
drains the escrow, and marks it claimed; every further `claim_stealth`
on that account fails with `AlreadyClaimed` and transfers nothing. -/
theorem claim_C7 (s : Chain) (snd r r2 : Pubkey) (sa ep : Bytes) (vt : Nat)
    (now1 : Int) (s1 : Chain)
    (hsend : sendStealth s snd sa ep vt 5 now1 = .ok s1)
    (hnoovf : alGet s1.wallets r + 5 < U64_MOD) :
    ∃ s2 : Chain, claimStealth s1 r sa = .ok s2 ∧
      alGet s2.wallets r = alGet s1.wallets r + 5 ∧
      alGet s2.stealthLamports sa = 0 ∧
      (findStealth s2.stealths sa).map StealthAccount.claimed = some true ∧
      claimStealth s2 r2 sa = .error (.privacy .AlreadyClaimed) ∧
      claimStealthExec s2 r2 sa = s2 := by
  obtain ⟨hst, hlam, hwal, hpool, hfree, hamt⟩ :=
    sendStealth_ok_shape s snd sa ep vt 5 now1 s1 hsend
  have hfind1 : findStealth s1.stealths sa = some
      ({ sender := snd, stealth_address := sa, ephemeral_pubkey := ep,
         view_tag := vt, amount := 5, claimed := false, created_at := now1,
         bump := 0 } : StealthAccount) := by
    rw [hst]; unfold findStealth; rw [if_pos rfl]
  have hok := claimStealth_fresh s1 r sa _ hfind1 rfl
    (by show (0 : Nat) < 5; omega) hlam hnoovf
  have hfind2 : findStealth (setClaimed s1.stealths sa) sa = some
      ({ sender := snd, stealth_address := sa, ephemeral_pubkey := ep,
         view_tag := vt, amount := 5, claimed := true, created_at := now1,
         bump := 0 } : StealthAccount) := by
    rw [hst]
    unfold setClaimed
    rw [if_pos rfl]
    unfold findStealth
    rw [if_pos rfl]
  refine ⟨_, hok, ?_, ?_, ?_, ?_, ?_⟩
  · exact alGet_alSet_self _ _ _
  · exact alGet_alSet_self _ _ _
  · show (findStealth (setClaimed s1.stealths sa) sa).map
      StealthAccount.claimed = some true
    rw [hfind2]
    rfl
  · exact (claimStealth_already _ r2 sa _ hfind2 rfl).1
  · exact (claimStealth_already _ r2 sa _ hfind2 rfl).2

/-- Claim C7, witness: the scenario run concretely from the sample
chain: wallet 4 escrows 5 lamports to stealth address `A7`, signer 42
claims them once, and signer 43's repeat claim fails. -/
theorem claim_C7_witness :
    ∃ s2 : Chain,
      claimStealth (sendStealthExec baseChain 4 A7 (List.replicate 32 8) 1
        5 3) 42 A7 = .ok s2 ∧
      alGet s2.wallets 42
        = alGet (sendStealthExec baseChain 4 A7 (List.replicate 32 8) 1 5
            3).wallets 42 + 5 ∧
      alGet s2.stealthLamports A7 = 0 ∧
      (findStealth s2.stealths A7).map StealthAccount.claimed = some true ∧
      claimStealth s2 43 A7 = .error (.privacy .AlreadyClaimed) ∧
      claimStealthExec s2 43 A7 = s2 :=
  claim_C7 baseChain 4 42 43 A7 (List.replicate 32 8) 1 3
    (sendStealthExec baseChain 4 A7 (List.replicate 32 8) 1 5 3) rfl
    (by decide)

end Makora
